import Mathlib

/-
Verification of the MCP SQL assistant core: the Tool Backend
(tools/sql_tools.py), the Request Dispatcher and Process Host
(server/mcp_server.py, the fallback FastMCP class), and the Client Proxy
(client/client_module.py, MCPSQLClient).  Each Python function the claims
touch is embedded as an executable Lean definition; external collaborators
(json decoding, the str() rendering of decoded JSON values, the database
driver) are passed in as explicit parameters or oracles.
-/

set_option maxRecDepth 4096

namespace MCPSQL

/-- Characters stripped by Python str.strip with no argument. -/
def pySpace (c : Char) : Bool :=
  c == ' ' || c == '\t' || c == '\n' || c == '\r' || c == '\x0b' || c == '\x0c'

/-- Python str.strip on a character list: drop leading and trailing whitespace. -/
def stripList (l : List Char) : List Char :=
  ((l.dropWhile pySpace).reverse.dropWhile pySpace).reverse

/-- Python str.strip, modelled over the underlying character list. -/
def pyStrip (s : String) : String := ⟨stripList s.data⟩

/-- Python substring containment (the `in` operator on str), over character
lists: true iff pat occurs contiguously in l (the empty pattern is contained
everywhere, as in Python). -/
def hasSubstr (l pat : List Char) : Bool :=
  match l with
  | [] => pat.isEmpty
  | _ :: tl => pat.isPrefixOf l || hasSubstr tl pat

/-- Python str.split with a single-character separator: splits on every
occurrence, keeping empty pieces, so that splitting the empty string yields
one empty piece. -/
def splitOnChar (c : Char) : List Char → List (List Char)
  | [] => [[]]
  | x :: xs =>
    let r := splitOnChar c xs
    if x == c then [] :: r
    else
      match r with
      | h :: t => (x :: h) :: t
      | [] => [[x]]

/-! ## Tool Backend (tools/sql_tools.py, class SQLQueryTool) -/

/-- One element of SQLQueryTool.executed_queries: the dict appended by
run_query, with keys query, result and timestamp. -/
structure HistEntry where
  query : String
  result : String
  timestamp : String
deriving DecidableEq, Repr

/-- The mutable fields of SQLQueryTool that run_query touches:
executed_queries, last_query and last_result (both None until a first call,
hence Option). -/
structure ToolState where
  executed_queries : List HistEntry
  last_query : Option String
  last_result : Option String
deriving DecidableEq, Repr

/-- SQLQueryTool.__init__: executed_queries starts empty, last_query and
last_result start as None. -/
def initState : ToolState := ⟨[], none, none⟩

/-- SQLQueryTool.run_query.  The database execution
(QuerySQLDataBaseTool.run) is the outcome oracle: Except.ok r is a run that
returned r, Except.error e is a run that raised an exception rendered as e.
now is the timestamp string produced by the logging formatter.  On success
the stripped query is stored in last_query, the result in last_result, the
entry is appended to executed_queries and the list is truncated to its last
10 elements when it exceeds 10.  On an exception the error text
"Error executing query: " ++ e is returned and stored in last_result (and
the stripped query in last_query), and executed_queries is left unchanged:
the append sits inside the try block, before the raise is caught. -/
def run_query (now q : String) (outcome : Except String String)
    (s : ToolState) : String × ToolState :=
  match outcome with
  | .ok result =>
    let lq := pyStrip q
    let entries := s.executed_queries ++ [⟨lq, result, now⟩]
    let entries := if entries.length > 10 then entries.drop (entries.length - 10) else entries
    (result, ⟨entries, some lq, some result⟩)
  | .error e =>
    let msg := "Error executing query: " ++ e
    (msg, ⟨s.executed_queries, some (pyStrip q), some msg⟩)

/-- One successful run_query step, state part only. -/
def runOk (now : String) (s : ToolState) (qr : String × String) : ToolState :=
  (run_query now qr.1 (.ok qr.2) s).2

/-- A sequence of successful run_query calls (query, database result) from a
fresh SQLQueryTool. -/
def runMany (qs : List (String × String)) : ToolState :=
  qs.foldl (runOk "") initState

/-- A sequence of run_query calls whose executions all raise, from a fresh
SQLQueryTool. -/
def runManyErr (qs : List String) : ToolState :=
  qs.foldl (fun s q => (run_query "" q (.error "fail") s).2) initState

/-- The history entry a successful run_query call (query, result) appends. -/
def entryOf (qr : String × String) : HistEntry := ⟨pyStrip qr.1, qr.2, ""⟩

/-- The last n elements of a list. -/
def lastN (n : Nat) (l : List α) : List α := l.drop (l.length - n)

/-! ## SQLQueryTool.generate_table_ddl -/

/-- The character list of the literal searched for by generate_table_ddl. -/
def ctPat : List Char := "CREATE TABLE".data

/-- The create_statement computed by SQLQueryTool.generate_table_ddl from
the raw introspection output: take the first line (split on newline)
containing "CREATE TABLE", split it on tab; create_statement is the second
field when the line has more than one field, and stays the empty string
otherwise (the loop breaks at the first matching line either way). -/
def extractCreate (raw : String) : List Char :=
  match (splitOnChar '\n' raw.data).find? (fun line => hasSubstr line ctPat) with
  | some line =>
    match splitOnChar '\t' line with
    | _ :: p1 :: _ => p1
    | _ => []
  | none => []

/-- SQLQueryTool.generate_table_ddl, as a function of the table name and the
raw output the SHOW CREATE TABLE run_query call returned (the database
execution is the caller's oracle).  If "CREATE TABLE" does not occur in the
raw output, or the extracted create_statement is empty (falsy), the raw
output is returned unchanged; otherwise the formatted string
"-- DDL for table: {name}\n{create_statement};" is returned. -/
def generate_table_ddl (table_name raw : String) : String :=
  if hasSubstr raw.data ctPat then
    let cs := extractCreate raw
    if cs.isEmpty then raw
    else "-- DDL for table: " ++ table_name ++ "\n" ++ String.mk cs ++ ";"
  else raw

/-! ## Request Dispatcher and Process Host (server/mcp_server.py, fallback
class FastMCP: methods process_request and run) -/

/-- The params object of a decoded tools/call request: the tool name
(request.params.name) and the argument mapping
(request.params.get("arguments", {}), missing mapped to empty). -/
structure CallParams where
  name : String
  arguments : List (String × String)
deriving DecidableEq, Repr

/-- A decoded request line: id (request.get("id"), null/absent modelled as
none), method (request.get("method", ""), absent modelled as the empty
string) and the params object.  A line that json.loads rejects, or whose
decoded value lacks the params/name structure so that indexing raises inside
process_request (caught by its own except clause, producing no output), is
modelled as a decode returning none. -/
structure Request where
  id : Option Int
  method : String
  params : CallParams
deriving DecidableEq, Repr

/-- What invoking a registered tool function does: return a string, or raise
an exception rendered as a message. -/
inductive Outcome where
  | value (s : String)
  | raised (msg : String)

/-- A response line written by process_request: either a result envelope
wrapping the returned text as one text content item, or an error envelope
with a code and message. -/
inductive Response where
  | result (id : Option Int) (text : String)
  | error (id : Option Int) (code : Int) (message : String)
deriving DecidableEq, Repr

/-- FastMCP.process_request on a decoded request, as the optional response
line it prints.  For method "tools/call": a registered tool that returns s
yields a result envelope; an unregistered name yields the error envelope
with code -1 and message "Tool {name} not found"; a registered tool that
raises jumps to the outer except clause, which only logs — the print sits
inside the try block, so no response is written (none).  Any other method
skips the whole if block and writes nothing. -/
def processRequest (tools : String → Option (List (String × String) → Outcome))
    (req : Request) : Option Response :=
  if req.method = "tools/call" then
    match tools req.params.name with
    | some f =>
      match f req.params.arguments with
      | .value s => some (.result req.id s)
      | .raised _ => none
    | none => some (.error req.id (-1) ("Tool " ++ req.params.name ++ " not found"))
  else none

/-- One iteration of FastMCP.run on one input line: a line that is empty
after stripping is skipped; otherwise the line is decoded (none models a
json.loads failure or a missing-field access raising, both caught and
logged with no output) and dispatched. -/
def hostStep (decode : String → Option Request)
    (tools : String → Option (List (String × String) → Outcome))
    (line : String) : Option Response :=
  if (pyStrip line).data.isEmpty then none
  else
    match decode line with
    | none => none
    | some req => processRequest tools req

/-- FastMCP.run over a whole input stream: the loop reads one line at a
time, emits at most one response line per input line, and ends cleanly when
input() raises EOFError at end of stream — modelled by structural recursion
over the list of lines, the output being the list of response lines
written. -/
def runLoop (decode : String → Option Request)
    (tools : String → Option (List (String × String) → Outcome))
    (inputs : List String) : List Response :=
  inputs.filterMap (hostStep decode tools)

/-! ## Client Proxy (client/client_module.py, class MCPSQLClient) -/

/-- A decoded JSON value, as json.loads produces inside call_tool. -/
inductive JValue where
  | null
  | bool (b : Bool)
  | num (n : Int)
  | str (s : String)
  | arr (items : List JValue)
  | obj (fields : List (String × JValue))
deriving Repr

/-- Dictionary lookup on the fields of a decoded JSON object (keys are
unique after json.loads). -/
def jlookup (fields : List (String × JValue)) (k : String) : Option JValue :=
  (fields.find? (fun p => p.1 == k)).map (fun p => p.2)

/-- A decoded response Envelope: the error field ("error" in response, with
its value — present-with-null is some null) and the result field
(response.get("result", absent modelled as none)).  The server always
prints JSON objects, and call_tool destructures the decoded line through
exactly these two fields. -/
structure Envelope where
  error : Option JValue
  result : Option JValue

/-- The two-field dict every call_tool return takes:
{"error": bool, "result": payload}.  The payload is a decoded JSON value
because the content[0].get("text", "") branch passes the raw field value
through; every other branch stores a string. -/
structure ToolResult where
  error : Bool
  result : JValue
deriving Repr

/-- The outcome of the single readline on the subprocess stdout: the
30-second asyncio.wait_for expiring, an empty read (stream closed), or one
line of text. -/
inductive ReadResult where
  | timeout
  | empty
  | line (s : String)

/-- The transport behaviour of one send/receive round: either the write,
drain and read complete with a read outcome, or some exception is raised
during send/receive (broken pipe, stream error), rendered as its message. -/
inductive SendRecv where
  | ok (r : ReadResult)
  | exn (msg : String)

/-- The subprocess handle stored in self.process (None modelled as the
surrounding Option); alive records whether the process is still running. -/
structure ProcHandle where
  alive : Bool
deriving DecidableEq, Repr

/-- The Python builtins call_tool leans on, passed as oracles: json.loads of
a response line into an Envelope (none is json.JSONDecodeError), str() on a
decoded JSON value, and the message of the AttributeError raised when
content[0] is not a dict and .get is accessed on it. -/
structure PyEnv where
  decode : String → Option Envelope
  render : JValue → String
  attrErr : JValue → String

/-- MCPSQLClient.call_tool.  If self.process is None the guard returns the
failure dict with payload "MCP server not started" before any transport
work.  Otherwise one request line is written and exactly one response line
is read (no retry on any path): a wait_for expiry yields "Request timeout",
an empty read yields "No response from server", a line json.loads rejects
yields "Invalid response from server", a decoded envelope with an error
field yields str(error), and any exception raised during send/receive is
caught by the trailing except clause and returned as its message.  A
decoded envelope without an error field is destructured through
result = response.get("result", {}): a dict result with a "content" key
whose value is a nonempty list yields content[0].get("text", "") when
content[0] is a dict (and the AttributeError message when it is not); a
"content" value that is not a nonempty list yields str(content); any other
result shape yields str(result). -/
def callTool (env : PyEnv) (process : Option ProcHandle) (io : SendRecv) : ToolResult :=
  match process with
  | none => ⟨true, .str "MCP server not started"⟩
  | some _ =>
    match io with
    | .exn m => ⟨true, .str m⟩
    | .ok .timeout => ⟨true, .str "Request timeout"⟩
    | .ok .empty => ⟨true, .str "No response from server"⟩
    | .ok (.line s) =>
      match env.decode s with
      | none => ⟨true, .str "Invalid response from server"⟩
      | some resp =>
        match resp.error with
        | some e => ⟨true, .str (env.render e)⟩
        | none =>
          let result := resp.result.getD (.obj [])
          match result with
          | .obj fields =>
            match jlookup fields "content" with
            | some content =>
              match content with
              | .arr (c0 :: _) =>
                match c0 with
                | .obj cf => ⟨false, (jlookup cf "text").getD (.str "")⟩
                | v => ⟨true, .str (env.attrErr v)⟩
              | _ => ⟨false, .str (env.render content)⟩
            | none => ⟨false, .str (env.render result)⟩
          | other => ⟨false, .str (env.render other)⟩

/-- The observable steps MCPSQLClient.close takes on the subprocess. -/
inductive CloseAction where
  | terminate
  | waitUpTo5
  | kill
  | waitExit
deriving DecidableEq, Repr

/-- MCPSQLClient.close: a no-op when self.process is None; otherwise
terminate() is requested (a no-op on an already-exited process), the exit
is awaited for up to 5 seconds, and on expiry the process is killed and its
exit awaited.  self.process keeps the (now dead) handle — it is never reset
to None — so the state part records the handle with alive false.  The
boolean oracle says whether the process exits within the 5-second wait. -/
def closeProxy (process : Option ProcHandle) (exitsWithin5 : Bool) :
    Option ProcHandle × List CloseAction :=
  match process with
  | none => (none, [])
  | some _ =>
    if exitsWithin5 then (some ⟨false⟩, [.terminate, .waitUpTo5])
    else (some ⟨false⟩, [.terminate, .waitUpTo5, .kill, .waitExit])

/-- The ways MCPSQLClient.start_server can go: the server script path does
not exist (returns False, self.process still None); spawning raises
(caught, returns False, self.process still None); the spawned process exits
within the 1-second grace sleep (returns False, but self.process keeps the
dead handle); or the process survives the grace window (returns True). -/
inductive StartScenario where
  | scriptMissing
  | spawnFailed
  | diedEarly
  | ok

/-- MCPSQLClient.start_server: the returned success flag and the value of
self.process afterwards, per scenario. -/
def start_server : StartScenario → Bool × Option ProcHandle
  | .scriptMissing => (false, none)
  | .spawnFailed => (false, none)
  | .diedEarly => (false, some ⟨false⟩)
  | .ok => (true, some ⟨true⟩)

/-! ## Concrete instances used by witnesses and counterexamples -/

/-- A dispatch table with one registered tool whose invocation raises. -/
def toolsRaise : String → Option (List (String × String) → Outcome) :=
  fun n => if n = "run_query" then some (fun _ => .raised "boom") else none

/-- An empty dispatch table. -/
def toolsNone : String → Option (List (String × String) → Outcome) := fun _ => none

/-- A tools/call request for the registered raising tool. -/
def reqRaise : Request := ⟨some 1, "tools/call", ⟨"run_query", []⟩⟩

/-- A tools/call request for an unregistered tool name. -/
def reqUnknown : Request := ⟨some 2, "tools/call", ⟨"nope", []⟩⟩

/-- A concrete instantiation of the Python builtins call_tool uses: a
decoder with a handful of known lines (everything else fails to decode) and
a str() rendering that distinguishes lists from other values. -/
def envW : PyEnv where
  decode := fun s =>
    if s = "E" then some ⟨some (.str "err"), none⟩
    else if s = "L" then some ⟨none, some (.obj [("content", .arr [])])⟩
    else if s = "A" then
      some ⟨none, some (.obj [("content",
        .arr [.obj [("type", .str "text"), ("text", .str "hello")]])])⟩
    else if s = "B" then some ⟨none, some (.obj [("content", .str "plain")])⟩
    else if s = "C" then some ⟨none, some (.num 5)⟩
    else none
  render := fun v => match v with | .arr _ => "rendered list" | _ => "rendered other"
  attrErr := fun _ => "attr error"

/-- Holds when a decoded JSON value is not a nonempty list, i.e. when the
isinstance(content, list) and len(content) > 0 test in call_tool fails. -/
def notNonemptyList : JValue → Bool
  | .arr (_ :: _) => false
  | _ => true

/-- Holds when a decoded JSON value is not a dict carrying a "content" key,
i.e. when the isinstance(result, dict) and "content" in result test in
call_tool fails. -/
def noContentKey : JValue → Bool
  | .obj f => (jlookup f "content").isNone
  | _ => true

/-! ## Auxiliary lemmas about the last-n truncation -/

theorem lastN_of_le {α} {n : Nat} {l : List α} (h : l.length ≤ n) : lastN n l = l := by
  unfold lastN
  rw [Nat.sub_eq_zero_of_le h, List.drop_zero]

theorem lastN_length_le {α} (n : Nat) (l : List α) : (lastN n l).length ≤ n := by
  simp only [lastN, List.length_drop]
  omega

theorem lastN_append_of_le {α} (n : Nat) (P X : List α) (h : n ≤ X.length) :
    lastN n (P ++ X) = lastN n X := by
  unfold lastN
  rw [List.length_append]
  have h1 : P.length + X.length - n = P.length + (X.length - n) := by omega
  rw [h1, ← List.drop_drop, List.drop_left]

theorem lastN_append_left {α} (n : Nat) (A M : List α) :
    lastN n (lastN n A ++ M) = lastN n (A ++ M) := by
  rcases Nat.le_total A.length n with h | h
  · rw [lastN_of_le h]
  · have hx : n ≤ (A.drop (A.length - n) ++ M).length := by
      rw [List.length_append, List.length_drop]
      omega
    calc lastN n (lastN n A ++ M)
        = lastN n (A.drop (A.length - n) ++ M) := rfl
      _ = lastN n (A.take (A.length - n) ++ (A.drop (A.length - n) ++ M)) :=
          (lastN_append_of_le n _ _ hx).symm
      _ = lastN n (A ++ M) := by rw [← List.append_assoc, List.take_append_drop]

/-- The executed_queries list after one successful run_query call is the
last-10 truncation of the old list with the new entry appended. -/
theorem runOk_hist (now : String) (s : ToolState) (qr : String × String) :
    (runOk now s qr).executed_queries =
      lastN 10 (s.executed_queries ++ [⟨pyStrip qr.1, qr.2, now⟩]) := by
  simp only [runOk, run_query]
  split
  · rfl
  · rename_i hle
    unfold lastN
    rw [Nat.sub_eq_zero_of_le (by omega), List.drop_zero]

/-- Folding successful run_query calls from any state holding at most 10
history entries leaves the last-10 truncation of the full appended
history. -/
theorem foldl_runOk_hist :
    ∀ (qs : List (String × String)) (s : ToolState),
      s.executed_queries.length ≤ 10 →
      (qs.foldl (runOk "") s).executed_queries =
        lastN 10 (s.executed_queries ++ qs.map entryOf) := by
  intro qs
  induction qs with
  | nil =>
    intro s hs
    simp only [List.foldl_nil, List.map_nil, List.append_nil]
    exact (lastN_of_le hs).symm
  | cons q qs ih =>
    intro s hs
    rw [List.foldl_cons, ih _ (by rw [runOk_hist]; exact lastN_length_le 10 _)]
    rw [runOk_hist, lastN_append_left, List.append_assoc]
    rfl

/-! ## Claim theorems -/

/-- C1 (counterexample): a run_query call whose execution raises returns the
descriptive error text, but the attempt is NOT appended to the execution
history — after one failing call on a fresh SQLQueryTool, executed_queries
is still empty, where the claim predicts an entry storing the error string. -/
theorem c1_history_not_appended_on_error_cex :
    (run_query "" "BAD" (.error "boom") initState).1 = "Error executing query: boom" ∧
    (run_query "" "BAD" (.error "boom") initState).2.executed_queries = [] := by
  decide

/-- C1 (amended): a run_query call whose execution raises returns the
descriptive error-text string "Error executing query: " followed by the
exception message (not a raise), and records the attempt only in last_query
(the stripped query) and last_result (the error string); the execution
history list is left unchanged, with no entry appended. -/
theorem c1_run_query_error_amended (s : ToolState) (q e now : String) :
    (run_query now q (.error e) s).1 = "Error executing query: " ++ e ∧
    (run_query now q (.error e) s).2.executed_queries = s.executed_queries ∧
    (run_query now q (.error e) s).2.last_query = some (pyStrip q) ∧
    (run_query now q (.error e) s).2.last_result =
      some ("Error executing query: " ++ e) :=
  ⟨rfl, rfl, rfl, rfl⟩

/-- C2 (counterexample): dispatching a tools/call for a registered tool
whose invocation raises produces NO response at all — the exception is
caught by the outer except clause of process_request, which only logs, and
since the print sits inside the try block no Envelope error is written for
the request, where the claim predicts an Envelope error response line. -/
theorem c2_no_error_envelope_on_raise_cex :
    processRequest toolsRaise reqRaise = none := by
  decide

/-- C2 (amended): for every dispatch table and every tools/call request
naming a registered tool whose invocation raises, the dispatcher catches
the exception at its boundary — processRequest returns (it is total) — but
it does not convert it to an Envelope error: no response of any kind is
produced for that request. -/
theorem c2_raise_caught_no_response_amended
    (tools : String → Option (List (String × String) → Outcome)) (req : Request)
    (f : List (String × String) → Outcome) (e : String)
    (hm : req.method = "tools/call")
    (hf : tools req.params.name = some f)
    (hr : f req.params.arguments = .raised e) :
    processRequest tools req = none := by
  simp [processRequest, hm, hf, hr]

/-- C2 (witness): the amended theorem applied to the concrete raising
dispatch table. -/
theorem c2_raise_caught_no_response_amended_witness :
    processRequest toolsRaise reqRaise = none :=
  c2_raise_caught_no_response_amended toolsRaise reqRaise
    (fun _ => .raised "boom") "boom" rfl rfl rfl

/-- C4 (counterexample): eleven run_query calls whose executions all raise
leave the execution history empty — not the 10 most recent queries — so the
claim fails for sequences of run_query calls that include failing
executions (only successful executions are appended). -/
theorem c4_failing_calls_not_counted_cex :
    (["a", "b", "c", "d", "e", "f", "g", "h", "i", "j", "k"] : List String).length = 11 ∧
    (runManyErr ["a", "b", "c", "d", "e", "f", "g", "h", "i", "j", "k"]).executed_queries = [] := by
  decide

/-- C4 (amended): for every sequence of N successful run_query calls with
N > 10 on a fresh SQLQueryTool, the execution history holds exactly 10
entries and they are the 10 most recently issued queries in call order;
moreover the history never exceeds 10 entries after any run_query call
(whatever its outcome) from a state within the bound, and once the history
holds 10 entries a successful insertion evicts the oldest entry (FIFO). -/
theorem c4_history_bound_amended (qs : List (String × String)) (s s10 : ToolState)
    (now q r : String) (o : Except String String)
    (hqs : 10 < qs.length) (hs : s.executed_queries.length ≤ 10)
    (h10 : s10.executed_queries.length = 10) :
    (runMany qs).executed_queries = (qs.drop (qs.length - 10)).map entryOf ∧
    (runMany qs).executed_queries.length = 10 ∧
    (run_query now q o s).2.executed_queries.length ≤ 10 ∧
    (run_query now q (.ok r) s10).2.executed_queries =
      s10.executed_queries.drop 1 ++ [⟨pyStrip q, r, now⟩] := by
  have hmain : (runMany qs).executed_queries = (qs.drop (qs.length - 10)).map entryOf := by
    rw [runMany, foldl_runOk_hist qs initState (by simp [initState])]
    simp only [initState, List.nil_append]
    unfold lastN
    rw [List.length_map, List.map_drop]
  refine ⟨hmain, ?_, ?_, ?_⟩
  · rw [hmain, List.length_map, List.length_drop]
    omega
  · match o with
    | .ok res =>
      have := runOk_hist now s (q, res)
      simp only [runOk] at this
      rw [this]
      exact lastN_length_le 10 _
    | .error e =>
      simpa [run_query] using hs
  · have := runOk_hist now s10 (q, r)
    simp only [runOk] at this
    rw [this]
    unfold lastN
    rw [List.length_append, h10]
    match hsq : s10.executed_queries, h10 with
    | x :: rest, _ =>
      simp

/-- C4 (witness): the amended theorem at a concrete sequence of eleven
successful calls and a concrete 10-entry state. -/
theorem c4_history_bound_amended_witness :
    (runMany [("a", "1"), ("b", "2"), ("c", "3"), ("d", "4"), ("e", "5"), ("f", "6"),
        ("g", "7"), ("h", "8"), ("i", "9"), ("j", "10"), ("k", "11")]).executed_queries =
      (([("a", "1"), ("b", "2"), ("c", "3"), ("d", "4"), ("e", "5"), ("f", "6"),
        ("g", "7"), ("h", "8"), ("i", "9"), ("j", "10"), ("k", "11")] :
          List (String × String)).drop (11 - 10)).map entryOf ∧
    (runMany [("a", "1"), ("b", "2"), ("c", "3"), ("d", "4"), ("e", "5"), ("f", "6"),
        ("g", "7"), ("h", "8"), ("i", "9"), ("j", "10"), ("k", "11")]).executed_queries.length = 10 ∧
    (run_query "" "q" (.ok "r") initState).2.executed_queries.length ≤ 10 ∧
    (run_query "" "q" (.ok "r") ⟨List.replicate 10 ⟨"old", "res", ""⟩, none, none⟩).2.executed_queries =
      (List.replicate 10 (⟨"old", "res", ""⟩ : HistEntry)).drop 1 ++ [⟨pyStrip "q", "r", ""⟩] :=
  c4_history_bound_amended
    [("a", "1"), ("b", "2"), ("c", "3"), ("d", "4"), ("e", "5"), ("f", "6"),
      ("g", "7"), ("h", "8"), ("i", "9"), ("j", "10"), ("k", "11")]
    initState ⟨List.replicate 10 ⟨"old", "res", ""⟩, none, none⟩
    "" "q" "r" (.ok "r") (by decide) (by decide) (by decide)

/-- C5 (confirmed): for every dispatch table and every tools/call request
whose tool name is not registered, process_request writes the Envelope
error with the distinguishing code -1 and the message naming the missing
tool — and therefore never an Envelope result, the two response
constructors being distinct. -/
theorem c5_unknown_tool_error (tools : String → Option (List (String × String) → Outcome))
    (req : Request) (hm : req.method = "tools/call")
    (hn : tools req.params.name = none) :
    processRequest tools req =
      some (.error req.id (-1) ("Tool " ++ req.params.name ++ " not found")) := by
  simp [processRequest, hm, hn]

/-- C5 (witness): the theorem at the empty dispatch table and a concrete
unknown tool name. -/
theorem c5_unknown_tool_error_witness :
    processRequest toolsNone reqUnknown =
      some (.error (some 2) (-1) "Tool nope not found") :=
  c5_unknown_tool_error toolsNone reqUnknown rfl rfl

/-- C6 (confirmed): close on the Client Proxy is a no-op (no subprocess
action at all) when the proxy was never started; one close on a live
handle requests termination, waits up to 5 seconds, and kills plus awaits
exit exactly when the process is still alive after the wait; and a second
close leaves the process in the same terminated state (close never raises:
it is total, terminate on an exited process being a no-op). -/
theorem c6_close_idempotent (h : ProcHandle) (e e₂ : Bool) :
    closeProxy none e = (none, []) ∧
    (closeProxy (some h) e).1 = some ⟨false⟩ ∧
    (closeProxy ((closeProxy (some h) e).1) e₂).1 = (closeProxy (some h) e).1 ∧
    (closeProxy (some h) true).2 = [.terminate, .waitUpTo5] ∧
    (closeProxy (some h) false).2 = [.terminate, .waitUpTo5, .kill, .waitExit] := by
  cases e <;> cases e₂ <;> simp [closeProxy]

/-- C9 (confirmed): a line the host cannot decode produces no response line,
and the read loop still processes every line before and after it — the loop
over the whole (finite) input stream is a total function, so it ends
cleanly exactly at end of input and a single bad request never terminates
it. -/
theorem c9_bad_line_never_kills_host
    (decode : String → Option Request)
    (tools : String → Option (List (String × String) → Outcome))
    (pre post : List String) (bad : String) (hb : decode bad = none) :
    hostStep decode tools bad = none ∧
    runLoop decode tools (pre ++ bad :: post) =
      runLoop decode tools pre ++ runLoop decode tools post := by
  have h1 : hostStep decode tools bad = none := by
    unfold hostStep
    split
    · rfl
    · rw [hb]
  refine ⟨h1, ?_⟩
  unfold runLoop
  rw [List.filterMap_append, List.filterMap_cons_none h1]

/-- C9 (witness): the theorem at a decoder that rejects everything and a
concrete malformed line. -/
theorem c9_bad_line_never_kills_host_witness :
    hostStep (fun _ => none) toolsNone "oops" = none ∧
    runLoop (fun _ => none) toolsNone ([] ++ "oops" :: []) =
      runLoop (fun _ => none) toolsNone [] ++ runLoop (fun _ => none) toolsNone [] :=
  c9_bad_line_never_kills_host (fun _ => none) toolsNone [] [] "oops" rfl

/-- C3 (confirmed): call_tool on a started proxy always resolves to the
two-field dict (callTool is total over every transport outcome, so no
exception reaches the caller, and the single ReadResult it consumes models
the one bounded 30-second read — there is no retry path): a read expiry
yields the failure payload "Request timeout", an empty read yields
"No response from server", a line the decoder rejects yields the generic
"Invalid response from server", a decoded envelope carrying an error field
yields the stringified error, and an exception raised during send/receive
is returned as its message. -/
theorem c3_call_tool_failure_classes (env : PyEnv) (h : ProcHandle)
    (s₁ s₂ m : String) (resp : Envelope) (e : JValue)
    (hd1 : env.decode s₁ = none)
    (hd2 : env.decode s₂ = some resp) (he : resp.error = some e) :
    callTool env (some h) (.ok .timeout) = ⟨true, .str "Request timeout"⟩ ∧
    callTool env (some h) (.ok .empty) = ⟨true, .str "No response from server"⟩ ∧
    callTool env (some h) (.ok (.line s₁)) = ⟨true, .str "Invalid response from server"⟩ ∧
    callTool env (some h) (.ok (.line s₂)) = ⟨true, .str (env.render e)⟩ ∧
    callTool env (some h) (.exn m) = ⟨true, .str m⟩ := by
  refine ⟨rfl, rfl, ?_, ?_, rfl⟩
  · simp [callTool, hd1]
  · simp [callTool, hd2, he]

/-- C3 (witness): the theorem at the concrete environment, with the line
"MISS" rejected by the decoder and the line "E" decoding to an envelope
carrying an error field. -/
theorem c3_call_tool_failure_classes_witness :
    callTool envW (some ⟨true⟩) (.ok .timeout) = ⟨true, .str "Request timeout"⟩ ∧
    callTool envW (some ⟨true⟩) (.ok .empty) = ⟨true, .str "No response from server"⟩ ∧
    callTool envW (some ⟨true⟩) (.ok (.line "MISS")) = ⟨true, .str "Invalid response from server"⟩ ∧
    callTool envW (some ⟨true⟩) (.ok (.line "E")) = ⟨true, .str (envW.render (.str "err"))⟩ ∧
    callTool envW (some ⟨true⟩) (.exn "pipe broke") = ⟨true, .str "pipe broke"⟩ :=
  c3_call_tool_failure_classes envW ⟨true⟩ "MISS" "E" "pipe broke"
    ⟨some (.str "err"), none⟩ (.str "err") rfl rfl rfl

/-- C7 (counterexample): a decoded envelope whose result field is the dict
containing a "content" key holding an empty list: the result is not shaped
as one text content item, so the claim predicts a success payload rendering
the WHOLE result value, but call_tool renders only the content value —
str(content), not str(result). -/
theorem c7_renders_content_not_result_cex :
    callTool envW (some ⟨true⟩) (.ok (.line "L")) =
      ⟨false, .str (envW.render (.arr []))⟩ ∧
    callTool envW (some ⟨true⟩) (.ok (.line "L")) ≠
      ⟨false, .str (envW.render (.obj [("content", .arr [])]))⟩ := by
  constructor
  · rfl
  · simp [callTool, envW, jlookup]

/-- C7 (amended): on a decoded envelope with no error field, when the
result is a dict with a "content" key holding a nonempty list whose first
item is a dict, the success payload is that item's "text" value (empty
string when absent); when the "content" value is not a nonempty list, the
payload is a string rendering of the content value (not of the whole
result); for every other result shape the payload is a best-effort string
rendering of the whole result value. -/
theorem c7_result_shapes_amended (env : PyEnv) (h : ProcHandle)
    (s₁ s₂ s₃ : String) (r₁ r₂ r₃ : Envelope)
    (fields fields₂ cf : List (String × JValue)) (rest : List JValue)
    (content res : JValue)
    (hd1 : env.decode s₁ = some r₁) (he1 : r₁.error = none)
    (hr1 : r₁.result = some (.obj fields))
    (hc1 : jlookup fields "content" = some (.arr (.obj cf :: rest)))
    (hd2 : env.decode s₂ = some r₂) (he2 : r₂.error = none)
    (hr2 : r₂.result = some (.obj fields₂))
    (hc2 : jlookup fields₂ "content" = some content)
    (hnl : notNonemptyList content = true)
    (hd3 : env.decode s₃ = some r₃) (he3 : r₃.error = none)
    (hr3 : r₃.result = some res) (hnc : noContentKey res = true) :
    callTool env (some h) (.ok (.line s₁)) =
      ⟨false, (jlookup cf "text").getD (.str "")⟩ ∧
    callTool env (some h) (.ok (.line s₂)) = ⟨false, .str (env.render content)⟩ ∧
    callTool env (some h) (.ok (.line s₃)) = ⟨false, .str (env.render res)⟩ := by
  refine ⟨?_, ?_, ?_⟩
  · simp [callTool, hd1, he1, hr1, hc1]
  · simp only [callTool, hd2, he2, hr2, hc2, Option.getD_some]
    match content, hnl with
    | .null, _ => rfl
    | .bool b, _ => rfl
    | .num n, _ => rfl
    | .str s, _ => rfl
    | .arr [], _ => rfl
    | .obj f, _ => rfl
  · simp only [callTool, hd3, he3, hr3, Option.getD_some]
    match res, hnc with
    | .null, _ => rfl
    | .bool b, _ => rfl
    | .num n, _ => rfl
    | .str s, _ => rfl
    | .arr items, _ => rfl
    | .obj f, hnc =>
      simp only [noContentKey, Option.isNone_iff_eq_none] at hnc
      simp [hnc]

/-- C7 (witness): the amended theorem at the concrete environment: line "A"
decodes to a one-text-content-item result, line "B" to a result whose
content value is the string "plain", line "C" to the bare number 5. -/
theorem c7_result_shapes_amended_witness :
    callTool envW (some ⟨true⟩) (.ok (.line "A")) =
      ⟨false, (jlookup [("type", .str "text"), ("text", .str "hello")] "text").getD (.str "")⟩ ∧
    callTool envW (some ⟨true⟩) (.ok (.line "B")) = ⟨false, .str (envW.render (.str "plain"))⟩ ∧
    callTool envW (some ⟨true⟩) (.ok (.line "C")) = ⟨false, .str (envW.render (.num 5))⟩ :=
  c7_result_shapes_amended envW ⟨true⟩ "A" "B" "C"
    ⟨none, some (.obj [("content", .arr [.obj [("type", .str "text"), ("text", .str "hello")]])])⟩
    ⟨none, some (.obj [("content", .str "plain")])⟩
    ⟨none, some (.num 5)⟩
    [("content", .arr [.obj [("type", .str "text"), ("text", .str "hello")]])]
    [("content", .str "plain")]
    [("type", .str "text"), ("text", .str "hello")] []
    (.str "plain") (.num 5)
    rfl rfl rfl rfl rfl rfl rfl rfl rfl rfl rfl rfl rfl

/-- C8 (counterexample): introspection output whose CREATE TABLE text sits
before the tab, with garbage after it: generate_table_ddl does NOT return
the raw output unchanged — it returns the formatted string — yet what
follows the comment line is "garbage;", which contains no CREATE TABLE
statement, contradicting the dichotomy the claim states. -/
theorem c8_extracted_field_not_create_cex :
    generate_table_ddl "t" "CREATE TABLE x\tgarbage" = "-- DDL for table: t\ngarbage;" ∧
    hasSubstr ("garbage;" : String).data ctPat = false ∧
    generate_table_ddl "t" "CREATE TABLE x\tgarbage" ≠ "CREATE TABLE x\tgarbage" := by
  decide

/-- C8 (amended): generate_table_ddl returns the raw introspection output
unchanged whenever "CREATE TABLE" does not occur in it, and also whenever
the extracted create_statement is empty (no tab-split second field on the
first matching line); when the extraction yields a nonempty field, the
returned string is the comment line naming the table followed by that
extracted field terminated with a semicolon — the field is the CREATE
TABLE statement for output in the standard SHOW CREATE TABLE tabular
shape, but is copied as-is and need not itself contain "CREATE TABLE". -/
theorem c8_ddl_amended (t raw₀ raw₁ raw₂ : String)
    (h₀ : hasSubstr raw₀.data ctPat = false)
    (h₁ : (extractCreate raw₁).isEmpty = true)
    (h₂ : hasSubstr raw₂.data ctPat = true)
    (h₃ : (extractCreate raw₂).isEmpty = false) :
    generate_table_ddl t raw₀ = raw₀ ∧
    generate_table_ddl t raw₁ = raw₁ ∧
    generate_table_ddl t raw₂ =
      "-- DDL for table: " ++ t ++ "\n" ++ String.mk (extractCreate raw₂) ++ ";" := by
  refine ⟨?_, ?_, ?_⟩
  · simp [generate_table_ddl, h₀]
  · unfold generate_table_ddl
    split
    · simp [h₁]
    · rfl
  · simp [generate_table_ddl, h₂, h₃]

/-- C8 (witness): the amended theorem at concrete introspection outputs —
one with no CREATE clause, one with a CREATE TABLE text but no tab field,
and one in the standard tabular SHOW CREATE TABLE shape for the table
inventory. -/
theorem c8_ddl_amended_witness :
    generate_table_ddl "inventory" "no ddl here" = "no ddl here" ∧
    generate_table_ddl "inventory" "CREATE TABLE without tab" = "CREATE TABLE without tab" ∧
    generate_table_ddl "inventory"
        "Table\tCreate Table\ninventory\tCREATE TABLE inventory (id INT)" =
      "-- DDL for table: " ++ "inventory" ++ "\n" ++
        String.mk (extractCreate "Table\tCreate Table\ninventory\tCREATE TABLE inventory (id INT)") ++ ";" :=
  c8_ddl_amended "inventory" "no ddl here" "CREATE TABLE without tab"
    "Table\tCreate Table\ninventory\tCREATE TABLE inventory (id INT)"
    (by decide) (by decide) (by decide) (by decide)

/-- C10 (counterexample): a start that fails because the subprocess exits
within the 1-second grace window leaves self.process holding the dead
handle, so call_tool does not take the not-started guard: with the dead
server closing its stdout, the payload is "No response from server", not
"MCP server not started" as the claim predicts for a failed start. -/
theorem c10_died_early_not_guarded_cex :
    (start_server .diedEarly).1 = false ∧
    callTool envW (start_server .diedEarly).2 (.ok .empty) =
      ⟨true, .str "No response from server"⟩ ∧
    callTool envW (start_server .diedEarly).2 (.ok .empty) ≠
      ⟨true, .str "MCP server not started"⟩ := by
  refine ⟨rfl, rfl, ?_⟩
  simp [callTool, start_server]

/-- C10 (amended): call_tool returns the failure payload
"MCP server not started" exactly when self.process is None — the proxy was
never started, or the start attempt never created the process (missing
script, spawn failure); a start that failed because the process died within
the grace window leaves the handle set, and call_tool instead proceeds to
the transport and returns a transport-failure Result Envelope such as
"No response from server" — still a failure dict, with no raise and no
hang, but with a different payload. -/
theorem c10_not_started_guard_amended (env : PyEnv) (io : SendRecv) :
    callTool env none io = ⟨true, .str "MCP server not started"⟩ ∧
    (start_server .scriptMissing).2 = none ∧
    (start_server .spawnFailed).2 = none ∧
    start_server .diedEarly = (false, some ⟨false⟩) ∧
    callTool env (start_server .diedEarly).2 (.ok .empty) =
      ⟨true, .str "No response from server"⟩ :=
  ⟨rfl, rfl, rfl, rfl, rfl⟩

end MCPSQL
